import Mathlib

namespace Blog

/-- A row of the `users` table (schema.prisma, model User).  Fields not
touched by the verified handlers (bio, avatarUrl, active, timestamps) are
omitted. -/
structure User where
  id : String
  name : String
  username : String
  email : String
  password : String
  userTypeId : String
deriving DecidableEq, Repr

/-- A row of the `unconfirmed_users` table (schema.prisma, model
UnconfirmedUser).  `createdAt` is a timestamp in milliseconds. -/
structure UnconfirmedUser where
  id : String
  name : String
  username : String
  email : String
  password : String
  createdAt : Nat
deriving DecidableEq, Repr

/-- A row of the `user_types` table (schema.prisma, model UserType). -/
structure UserType where
  id : String
  type : String
deriving DecidableEq, Repr

/-- A row of the `article_tags` join table (schema.prisma, model
ArticleTag): autoincrement primary key `id`, unique (articleId, tagId). -/
structure ArticleTag where
  id : Nat
  articleId : String
  tagId : Nat
deriving DecidableEq, Repr

/-- A row of the `articles` table (schema.prisma, model Article); only the
fields the list endpoint touches are kept. -/
structure Article where
  id : String
  title : String
  content : String
  createdAt : Nat
  updatedAt : Nat
  userId : String
deriving DecidableEq, Repr

/-- The database state: one list per table used by the verified flows. -/
structure DB where
  users : List User
  unconfirmedUsers : List UnconfirmedUser
  userTypes : List UserType
  articleTags : List ArticleTag
  articles : List Article
deriving DecidableEq, Repr

/-- Write operations performed against the database, recorded in order. -/
inductive DbOp where
  | createUser (u : User)
  | deleteUnconfirmed (id : String)
deriving DecidableEq, Repr

/-- Failure modes of the confirmation handler: `notFound` and `expired`
are `ClientError`s; `missingCommonType` is the plain `Error` thrown by
`createAccount` when the seed row is absent (an unhandled 5xx). -/
inductive ConfirmError where
  | notFound
  | expired
  | missingCommonType
deriving DecidableEq, Repr

/-- Result of a confirmation request: the database afterwards, the write
operations in the order they were issued, and the outcome (the created
user's id on success). -/
structure ConfirmResult where
  db : DB
  ops : List DbOp
  outcome : Except ConfirmError String
deriving Repr

/-- The expiry window: dayjs `subtract(15, "minute")`, in milliseconds. -/
def fifteenMinutesMs : Nat := 15 * 60 * 1000

/-- createAccount (routes/users/create-account.ts): find the UserType with
type "common" (throwing if absent), then insert a User carrying the staged
fields and that type's id.  `newId` stands for the uuid Prisma generates. -/
def createAccount (db : DB) (newId : String) (existingUser : UnconfirmedUser) :
    Except ConfirmError (DB × User) :=
  match db.userTypes.find? (fun t => t.type == "common") with
  | none => .error .missingCommonType
  | some userType =>
    let user : User :=
      { id := newId
        name := existingUser.name
        username := existingUser.username
        email := existingUser.email
        password := existingUser.password
        userTypeId := userType.id }
    .ok ({ db with users := db.users ++ [user] }, user)

/-- confirmEmail (routes/users/confirm-email.ts): look up the
UnconfirmedUser by id (ClientError if absent); if `createdAt` is before
`now - 15 minutes`, delete the row and fail expired; otherwise promote via
`createAccount` and then delete the staging row.  `now` is the current
time in milliseconds and `newId` the uuid generated for the new user. -/
def confirmEmail (db : DB) (now : Nat) (newId : String) (user_id : String) :
    ConfirmResult :=
  match db.unconfirmedUsers.find? (fun u => u.id == user_id) with
  | none => ⟨db, [], .error .notFound⟩
  | some existingUser =>
    if existingUser.createdAt + fifteenMinutesMs < now then
      ⟨{ db with
          unconfirmedUsers :=
            db.unconfirmedUsers.filter (fun u => u.id != existingUser.id) },
        [.deleteUnconfirmed existingUser.id], .error .expired⟩
    else
      match createAccount db newId existingUser with
      | .error e => ⟨db, [], .error e⟩
      | .ok (db1, user) =>
        ⟨{ db1 with
            unconfirmedUsers :=
              db1.unconfirmedUsers.filter (fun u => u.id != existingUser.id) },
          [.createUser user, .deleteUnconfirmed existingUser.id],
          .ok user.id⟩

/-- Concrete database used to witness the confirmation theorems: one
staged registration (created at t = 1000 ms) and the "common" user type. -/
def dbConfirm : DB :=
  { users := []
    unconfirmedUsers := [⟨"uu1", "Ada Lovelace", "ada", "ada@x.io", "hashedpw", 1000⟩]
    userTypes := [⟨"ut1", "common"⟩]
    articleTags := []
    articles := [] }

/-- Outcome of a registration request.  `usernameInUse` and `emailInUse`
are the `ClientError`s thrown by the handler; `uniqueViolation` is the
error Prisma raises when the insert hits the unique constraints on
`unconfirmed_users` (schema.prisma: username and email `@unique`), which
the handler does not catch, so it propagates as a server error. -/
inductive RegOutcome where
  | usernameInUse
  | emailInUse
  | uniqueViolation
  | accepted (row : UnconfirmedUser)
deriving DecidableEq, Repr

/-- createUnconfirmedUser (routes/users/create-unconfirmed-user.ts):
check the confirmed `users` table for the username, then for the email
(ClientError on either hit); otherwise hash the password with bcrypt
(`hash` parameter) and insert one UnconfirmedUser row — an insert that
violates the staging table's own unique columns fails at the database.
`newId` is the uuid Prisma generates, `now` the creation timestamp. -/
def createUnconfirmedUser (hash : String → String) (db : DB) (newId : String)
    (now : Nat) (name username email password : String) : DB × RegOutcome :=
  let existingUsername := db.users.find? (fun u => u.username == username)
  let existingEmail := db.users.find? (fun u => u.email == email)
  if existingUsername.isSome then (db, .usernameInUse)
  else if existingEmail.isSome then (db, .emailInUse)
  else
    let hashedPassword := hash password
    if db.unconfirmedUsers.any (fun u => u.username == username || u.email == email) then
      (db, .uniqueViolation)
    else
      let row : UnconfirmedUser := ⟨newId, name, username, email, hashedPassword, now⟩
      ({ db with unconfirmedUsers := db.unconfirmedUsers ++ [row] }, .accepted row)

/-- Database with one confirmed user (ada) and no staged rows. -/
def dbUsers : DB :=
  { users := [⟨"u1", "Ada Lovelace", "ada", "ada@x.io", "hashedpw", "ut1"⟩]
    unconfirmedUsers := []
    userTypes := []
    articleTags := []
    articles := [] }

/-- Database with no confirmed users and one staged row whose username is
"alice". -/
def dbStaged : DB :=
  { users := []
    unconfirmedUsers := [⟨"uu2", "Bob", "alice", "bob@x.io", "h2", 0⟩]
    userTypes := []
    articleTags := []
    articles := [] }

/-- A signed token, as produced by `jwt.sign` in the login handler: the
explicit claims, the `iat`/`exp` the library adds (seconds), and the key
the signature binds it to. -/
structure Jwt where
  sub : String
  name : String
  username : String
  type : String
  iat : Nat
  exp : Nat
  key : String
deriving DecidableEq, Repr

/-- Failure modes of login, both thrown as `ClientError`s. -/
inductive LoginError where
  | notFound
  | passwordMismatch
deriving DecidableEq, Repr

/-- The `expiresIn: "30d"` expiry, in seconds. -/
def thirtyDaysSeconds : Nat := 30 * 24 * 60 * 60

/-- login (routes/users/login.ts): find the first User whose username or
email equals the credential (ClientError if none), compare the password
against the stored bcrypt hash (`compare` parameter; ClientError on
mismatch), then sign a token with sub, name, username and userTypeId and
a 30-day expiry.  `now` is the issuance time in seconds. -/
def login (compare : String → String → Bool) (db : DB)
    (credential password : String) (now : Nat) (secretJwtKey : String) :
    Except LoginError Jwt :=
  match db.users.find? (fun u => u.username == credential || u.email == credential) with
  | none => .error .notFound
  | some user =>
    if compare password user.password then
      .ok
        { sub := user.id
          name := user.name
          username := user.username
          type := user.userTypeId
          iat := now
          exp := now + thirtyDaysSeconds
          key := secretJwtKey }
    else .error .passwordMismatch

/-- Plaintext stand-in for bcrypt's compare, used only at witnesses. -/
def comparePlain (password stored : String) : Bool := password == stored

/-- The claims `jwt.verify` decodes from a valid token. -/
structure JwtClaims where
  sub : String
  name : String
  username : String
  type : String
  iat : Nat
  exp : Nat
deriving DecidableEq, Repr

/-- What `jwt.verify` can return on success: a plain string or a payload
object (the middleware rejects the string case). -/
inductive Decoded where
  | str (s : String)
  | payload (c : JwtClaims)
deriving DecidableEq, Repr

/-- An incoming request as the gate sees it: its Authorization header,
absent or present. -/
structure Request where
  authorization : Option String
deriving DecidableEq, Repr

/-- Outcome of the gate: the two distinct 401 replies ("Token not
provided" / "Invalid token"), or proceeding with the decoded claims
attached to the request context. -/
inductive GateResult where
  | unauthorizedMissing
  | unauthorizedInvalid
  | proceed (user : JwtClaims)
deriving DecidableEq, Repr

/-- JavaScript `"…".split(" ")` on a character list: each single space
starts a new field, so consecutive, leading or trailing spaces yield
empty fields, and the empty input yields one empty field. -/
def splitSp : List Char → List (List Char)
  | [] => [[]]
  | c :: rest =>
    let r := splitSp rest
    if c = ' ' then [] :: r
    else
      match r with
      | [] => [[c]]
      | f :: fs => (c :: f) :: fs

/-- The fields of `header.split(" ")`, as strings. -/
def headerFields (h : String) : List String :=
  (splitSp h.toList).map (fun cs => String.mk cs)

/-- verifyToken (middlewares/verify-token.ts): 401 when the header is
absent (or the empty string, which is falsy in `!authorizationHeader`);
otherwise take the second space-separated field — `split(" ")[1]` — and
run `jwt.verify` (the `verify` parameter) on it.  A missing second field
means `jwt.verify(undefined)`, which throws; a thrown error or a string
result is a 401; a payload is attached to the request. -/
def verifyToken (verify : String → Except String Decoded) (request : Request) :
    GateResult :=
  match request.authorization with
  | none => .unauthorizedMissing
  | some authorizationHeader =>
    if authorizationHeader == "" then .unauthorizedMissing
    else
      match (headerFields authorizationHeader)[1]? with
      | none => .unauthorizedInvalid
      | some token =>
        match verify token with
        | .error _ => .unauthorizedInvalid
        | .ok (.str _) => .unauthorizedInvalid
        | .ok (.payload decoded) => .proceed decoded

/-- Demo claims and verifier used by the C5 counterexample and witness:
`verifyDemo` accepts exactly the token string "tok1". -/
def claimsDemo : JwtClaims := ⟨"u1", "Ada Lovelace", "ada", "ut1", 0, 99999⟩

/-- A concrete instantiation of the external `jwt.verify`. -/
def verifyDemo : String → Except String Decoded := fun t =>
  if t == "tok1" then .ok (.payload claimsDemo) else .error ("invalid signature")

/-- The rows `createMany` inserts: one per requested tag id, with
consecutive autoincrement primary keys starting at `n`. -/
def freshRows (articleId : String) : Nat → List Nat → List ArticleTag
  | _, [] => []
  | n, t :: ts => ⟨n, articleId, t⟩ :: freshRows articleId (n + 1) ts

/-- updateArticle's tag half (routes/articles/update.ts): with a
non-empty `tagIds`, read the article's current associations, delete (by
row id) those whose tagId is not in the new list, and create one row per
tagId not among the current ones; with `tagIds` omitted or empty, delete
all of the article's associations.  The article-row field update itself
touches no ArticleTag row and is omitted.  `nextId` is the autoincrement
counter of `article_tags`. -/
def updateArticleTags (tbl : List ArticleTag) (nextId : Nat) (articleId : String)
    (tagIds : Option (List Nat)) : List ArticleTag :=
  match tagIds with
  | some ts =>
    if ts.length > 0 then
      let previousTags := tbl.filter (fun t => t.articleId == articleId)
      let tagsToDelete := previousTags.filter (fun t => !(ts.contains t.tagId))
      let delIds := tagsToDelete.map (fun t => t.id)
      let afterDelete := tbl.filter (fun t => !(delIds.contains t.id))
      let previousTagIds := previousTags.map (fun t => t.tagId)
      let tagsToCreate := ts.filter (fun t => !(previousTagIds.contains t))
      afterDelete ++ freshRows articleId nextId tagsToCreate
    else tbl.filter (fun t => !(t.articleId == articleId))
  | none => tbl.filter (fun t => !(t.articleId == articleId))

/-- The spec's description of the reconciliation, written from its words:
given a new tagIds list, keep every row that is not an association of
this article with a tagId outside the new list, and add one fresh row for
each new tagId not among the article's old tagIds; when the list is
omitted or empty, remove all of the article's associations. -/
def articleTagSyncSpec (tbl : List ArticleTag) (nextId : Nat) (articleId : String)
    (tagIds : Option (List Nat)) : List ArticleTag :=
  match tagIds with
  | none => tbl.filter (fun r => !(r.articleId == articleId))
  | some ts =>
    if ts.isEmpty then tbl.filter (fun r => !(r.articleId == articleId))
    else
      let oldTagIds :=
        (tbl.filter (fun r => r.articleId == articleId)).map (fun r => r.tagId)
      tbl.filter (fun r => !(r.articleId == articleId && !(ts.contains r.tagId)))
        ++ freshRows articleId nextId (ts.filter (fun t => !(oldTagIds.contains t)))

/-- The zod `sortBy` enum: the fixed allow-list of sortable fields. -/
inductive SortField where
  | createdAt
  | updatedAt
  | title
deriving DecidableEq, Repr

/-- The zod `orderByDirection` enum. -/
inductive SortDir where
  | asc
  | desc
deriving DecidableEq, Repr

/-- Whether `needle` occurs at the head of `hay`. -/
def matchesAt : List Char → List Char → Bool
  | _, [] => true
  | [], _ :: _ => false
  | a :: hay, b :: needle => a == b && matchesAt hay needle

/-- Whether `needle` occurs contiguously anywhere in `hay`. -/
def hasSubstring : List Char → List Char → Bool
  | [], needle => needle.isEmpty
  | a :: hay, needle => matchesAt (a :: hay) needle || hasSubstring hay needle

/-- Prisma's `title: { contains: query }` filter: substring match. -/
def titleContains (title q : String) : Bool :=
  hasSubstring title.toList q.toList

/-- Comparison of two articles on one sort field, ascending. -/
def articleKeyLe (sortBy : SortField) (a b : Article) : Bool :=
  match sortBy with
  | .createdAt => decide (a.createdAt ≤ b.createdAt)
  | .updatedAt => decide (a.updatedAt ≤ b.updatedAt)
  | .title => decide (a.title ≤ b.title)

/-- The `orderBy: { [sortBy]: orderByDirection }` comparator. -/
def articleLe (sortBy : SortField) (dir : SortDir) (a b : Article) : Bool :=
  match dir with
  | .asc => articleKeyLe sortBy a b
  | .desc => articleKeyLe sortBy b a

/-- Insert into a sorted list, keeping earlier elements first on ties. -/
def insertLe (le : Article → Article → Bool) (a : Article) :
    List Article → List Article
  | [] => [a]
  | b :: bs => if le a b then a :: b :: bs else b :: insertLe le a bs

/-- The database engine's ordering of the result set. -/
def sortArticles (le : Article → Article → Bool) : List Article → List Article
  | [] => []
  | a :: as => insertLe le a (sortArticles le as)

/-- The filtered and sorted article sequence Prisma's findMany produces
before `take`/`skip` are applied: rows whose title contains the query (no
filter when the query is absent), ordered by the sort field and
direction. -/
def filteredSortedArticles (db : DB) (query : Option String)
    (sortBy : SortField) (dir : SortDir) : List Article :=
  let filtered :=
    match query with
    | none => db.articles
    | some q => db.articles.filter (fun a => titleContains a.title q)
  sortArticles (articleLe sortBy dir) filtered

/-- listAllArticles (routes/articles/list.ts): defaults sortBy to
createdAt, direction to asc, take to 10 and page to 1, then returns
`take` rows after skipping `(page - 1) * take` of the filtered, sorted
sequence. -/
def listAllArticles (db : DB) (query : Option String)
    (sortBy : Option SortField) (dir : Option SortDir)
    (takeParam pageParam : Option Nat) : List Article :=
  let sortBy := sortBy.getD .createdAt
  let dir := dir.getD .asc
  let tk := takeParam.getD 10
  let pg := pageParam.getD 1
  ((filteredSortedArticles db query sortBy dir).drop ((pg - 1) * tk)).take tk

/-- The raw process environment, restricted to the keys the schema reads
(zod object parsing ignores all other keys). -/
structure EnvInput where
  NODE_ENV : Option String
  DATABASE_URL : Option String
  PORT : Option String
  JWT_SECRET_KEY : Option String
deriving DecidableEq, Repr

/-- The parsed configuration: exactly the four fields of `envSchema` —
the schema declares no mail or base-URL settings. -/
structure Env where
  NODE_ENV : String
  DATABASE_URL : String
  PORT : Int
  JWT_SECRET_KEY : String
deriving DecidableEq, Repr

/-- envSchema.parse (src/env.ts): NODE_ENV is an enum of development /
test / production defaulting to "development"; DATABASE_URL is a required
URL (`isUrl` stands for zod's URL check) of length at least 1; PORT is
coerced to a number (`toNumber` stands for the coercion, failing on
non-numeric input) defaulting to 3333; JWT_SECRET_KEY is a required
string.  Parsing fails — the process does not start — exactly when some
field fails. -/
def parseEnv (isUrl : String → Bool) (toNumber : String → Option Int)
    (i : EnvInput) : Option Env :=
  let nodeEnv : Option String :=
    match i.NODE_ENV with
    | none => some ("development")
    | some s =>
      if s == "development" || s == "test" || s == "production" then some s else none
  let databaseUrl : Option String :=
    match i.DATABASE_URL with
    | none => none
    | some s => if isUrl s && decide (1 ≤ s.length) then some s else none
  let port : Option Int :=
    match i.PORT with
    | none => some 3333
    | some s => toNumber s
  let jwtSecretKey : Option String := i.JWT_SECRET_KEY
  match nodeEnv, databaseUrl, port, jwtSecretKey with
  | some n, some dbu, some p, some k => some ⟨n, dbu, p, k⟩
  | _, _, _, _ => none

/-- Stand-in for zod's URL validity check at concrete inputs. -/
def isUrlAlways : String → Bool := fun _ => true

/-- Stand-in for number coercion that accepts nothing (never consulted at
the inputs where it is used). -/
def toNumberNone : String → Option Int := fun _ => none

/-- Helper: after all rows with id `x` are filtered out, a lookup by id
`x` finds nothing. -/
theorem find?_id_filter_ne (l : List UnconfirmedUser) (x : String) :
    (l.filter (fun u => u.id != x)).find? (fun u => u.id == x) = none := by
  apply List.find?_eq_none.mpr
  intro a ha
  have h2 := (List.mem_filter.mp ha).2
  simp only [bne_iff_ne, ne_eq] at h2
  simp [h2]

/-- C1: a confirmation request whose user_id names an UnconfirmedUser row
created at most 15 minutes ago looks up the UserType "common" (failing
fatally when absent), creates exactly one new User carrying the staged
name, username, email, hashed password and that type's id, then deletes
that UnconfirmedUser row, in this order. -/
theorem confirmEmail_promotes_in_window
    (db : DB) (now : Nat) (newId uid : String) (eu : UnconfirmedUser)
    (hfind : db.unconfirmedUsers.find? (fun u => u.id == uid) = some eu)
    (hfresh : ¬ (eu.createdAt + fifteenMinutesMs < now)) :
    (db.userTypes.find? (fun t => t.type == "common") = none →
        confirmEmail db now newId uid = ⟨db, [], .error .missingCommonType⟩)
    ∧ (∀ ut, db.userTypes.find? (fun t => t.type == "common") = some ut →
        (confirmEmail db now newId uid).db.users
            = db.users ++ [⟨newId, eu.name, eu.username, eu.email, eu.password, ut.id⟩]
        ∧ (confirmEmail db now newId uid).db.unconfirmedUsers
            = db.unconfirmedUsers.filter (fun u => u.id != eu.id)
        ∧ (confirmEmail db now newId uid).ops
            = [.createUser ⟨newId, eu.name, eu.username, eu.email, eu.password, ut.id⟩,
               .deleteUnconfirmed eu.id]
        ∧ (confirmEmail db now newId uid).outcome = .ok newId) := by
  constructor
  · intro hnone
    simp [confirmEmail, hfind, hfresh, createAccount, hnone]
  · intro ut hut
    simp [confirmEmail, hfind, hfresh, createAccount, hut]

/-- C1 witness: the concrete staged row of `dbConfirm` is promoted at
t = 2000 ms. -/
theorem confirmEmail_promotes_in_window_witness :
    (confirmEmail dbConfirm 2000 ("nu1") ("uu1")).db.users
        = [⟨"nu1", "Ada Lovelace", "ada", "ada@x.io", "hashedpw", "ut1"⟩]
      ∧ (confirmEmail dbConfirm 2000 ("nu1") ("uu1")).outcome = .ok ("nu1") := by
  have h :=
    (confirmEmail_promotes_in_window dbConfirm 2000 ("nu1") ("uu1")
        ⟨"uu1", "Ada Lovelace", "ada", "ada@x.io", "hashedpw", 1000⟩
        rfl (by decide)).2 ⟨"ut1", "common"⟩ rfl
  exact ⟨h.1, h.2.2.2⟩

/-- C2: when the named UnconfirmedUser row exists and more than 15 minutes
have elapsed since its creation, confirmEmail deletes the staging row and
fails expired (creating no User); when at most 15 minutes have elapsed the
expiry branch is not taken. -/
theorem confirmEmail_expiry
    (db : DB) (now : Nat) (newId uid : String) (eu : UnconfirmedUser)
    (hfind : db.unconfirmedUsers.find? (fun u => u.id == uid) = some eu) :
    (fifteenMinutesMs < now - eu.createdAt →
        confirmEmail db now newId uid =
          ⟨{ db with
              unconfirmedUsers :=
                db.unconfirmedUsers.filter (fun u => u.id != eu.id) },
            [.deleteUnconfirmed eu.id], .error .expired⟩)
    ∧ (now - eu.createdAt ≤ fifteenMinutesMs →
        (confirmEmail db now newId uid).outcome ≠ .error .expired) := by
  constructor
  · intro hexp
    have h' : eu.createdAt + fifteenMinutesMs < now := by omega
    simp [confirmEmail, hfind, h']
  · intro hok
    have h' : ¬ (eu.createdAt + fifteenMinutesMs < now) := by omega
    cases hft : db.userTypes.find? (fun t => t.type == "common") with
    | none => simp [confirmEmail, hfind, h', createAccount, hft]
    | some ut => simp [confirmEmail, hfind, h', createAccount, hft]

/-- C2 witness: at t = 1000000 ms (more than 15 minutes after creation at
t = 1000 ms) the staged row of `dbConfirm` is deleted and the request
fails expired; at t = 2000 ms the expiry branch is not taken. -/
theorem confirmEmail_expiry_witness :
    (confirmEmail dbConfirm 1000000 ("nu1") ("uu1")).db.unconfirmedUsers = []
      ∧ (confirmEmail dbConfirm 1000000 ("nu1") ("uu1")).outcome = .error .expired
      ∧ (confirmEmail dbConfirm 2000 ("nu1") ("uu1")).outcome ≠ .error .expired := by
  have h :=
    confirmEmail_expiry dbConfirm 1000000 ("nu1") ("uu1")
      ⟨"uu1", "Ada Lovelace", "ada", "ada@x.io", "hashedpw", 1000⟩ rfl
  have h2 :=
    confirmEmail_expiry dbConfirm 2000 ("nu1") ("uu1")
      ⟨"uu1", "Ada Lovelace", "ada", "ada@x.io", "hashedpw", 1000⟩ rfl
  refine ⟨?_, ?_, h2.2 (by decide)⟩
  · rw [h.1 (by decide)]
    rfl
  · rw [h.1 (by decide)]

/-- Helper: when the lookup by user_id finds nothing, confirmEmail fails
not-found and leaves the database unchanged, for any database. -/
theorem confirmEmail_none (db : DB) (now : Nat) (newId uid : String)
    (hnone : db.unconfirmedUsers.find? (fun u => u.id == uid) = none) :
    confirmEmail db now newId uid = ⟨db, [], .error .notFound⟩ := by
  simp [confirmEmail, hnone]

/-- C7: a confirmation request whose user_id matches no UnconfirmedUser
row fails not-found and changes no state; in particular, after a
successful promotion has deleted the staging row, a second request for
the same user_id fails not-found. -/
theorem confirmEmail_notFound
    (db : DB) (now : Nat) (newId uid : String) :
    (db.unconfirmedUsers.find? (fun u => u.id == uid) = none →
        confirmEmail db now newId uid = ⟨db, [], .error .notFound⟩)
    ∧ (∀ eu, db.unconfirmedUsers.find? (fun u => u.id == uid) = some eu →
        ¬ (eu.createdAt + fifteenMinutesMs < now) →
        ∀ ut, db.userTypes.find? (fun t => t.type == "common") = some ut →
        ∀ now2 newId2,
          confirmEmail (confirmEmail db now newId uid).db now2 newId2 uid
            = ⟨(confirmEmail db now newId uid).db, [], .error .notFound⟩) := by
  constructor
  · intro hnone
    exact confirmEmail_none db now newId uid hnone
  · intro eu hfind hfresh ut hut now2 newId2
    have hid : eu.id = uid := by
      have := List.find?_some hfind
      simpa using this
    have hdb :
        (confirmEmail db now newId uid).db.unconfirmedUsers
          = db.unconfirmedUsers.filter (fun u => u.id != eu.id) := by
      simp [confirmEmail, hfind, hfresh, createAccount, hut]
    have hnone2 :
        (confirmEmail db now newId uid).db.unconfirmedUsers.find?
            (fun u => u.id == uid) = none := by
      rw [hdb, hid]
      exact find?_id_filter_ne _ _
    exact confirmEmail_none _ now2 newId2 uid hnone2

/-- C7 witness: looking up a user_id absent from `dbConfirm` fails
not-found, and after the successful promotion at t = 2000 ms a second
request for the same user_id fails not-found. -/
theorem confirmEmail_notFound_witness :
    confirmEmail dbConfirm 2000 ("nu1") ("zz9") = ⟨dbConfirm, [], .error .notFound⟩
      ∧ confirmEmail (confirmEmail dbConfirm 2000 ("nu1") ("uu1")).db 3000 ("nu2") ("uu1")
          = ⟨(confirmEmail dbConfirm 2000 ("nu1") ("uu1")).db, [], .error .notFound⟩ := by
  refine ⟨(confirmEmail_notFound dbConfirm 2000 ("nu1") ("zz9")).1 rfl, ?_⟩
  exact
    (confirmEmail_notFound dbConfirm 2000 ("nu1") ("uu1")).2
      ⟨"uu1", "Ada Lovelace", "ada", "ada@x.io", "hashedpw", 1000⟩ rfl (by decide)
      ⟨"ut1", "common"⟩ rfl 3000 ("nu2")

/-- C3 counterexample: with no confirmed User using the username or email
but a staged UnconfirmedUser row using the username, both checks pass yet
no row is inserted — the insert fails with the propagated unique-constraint
error, refuting "otherwise it ... inserts exactly one UnconfirmedUser row". -/
theorem createUnconfirmedUser_claim_counterexample :
    dbStaged.users.find? (fun u => u.username == "alice") = none
    ∧ dbStaged.users.find? (fun u => u.email == "a@x.io") = none
    ∧ (createUnconfirmedUser id dbStaged ("uu3") 0 ("Alice") ("alice") ("a@x.io") ("password1")).2
        = .uniqueViolation
    ∧ (createUnconfirmedUser id dbStaged ("uu3") 0 ("Alice") ("alice") ("a@x.io") ("password1")).1
        = dbStaged :=
  ⟨rfl, rfl, rfl, rfl⟩

/-- C3 (amended): a registration whose username or email equals that of a
confirmed User fails with a client error leaving both tables unchanged;
otherwise the password is hashed and, provided no UnconfirmedUser row
already uses the username or email, exactly one UnconfirmedUser row with
the given fields is inserted; a staging-table clash instead surfaces as
the propagated unique-constraint server error with no row written. -/
theorem createUnconfirmedUser_spec
    (hash : String → String) (db : DB) (newId : String) (now : Nat)
    (name username email password : String) :
    ((db.users.find? (fun u => u.username == username)).isSome = true →
        createUnconfirmedUser hash db newId now name username email password
          = (db, .usernameInUse))
    ∧ ((db.users.find? (fun u => u.username == username)).isSome = false →
       (db.users.find? (fun u => u.email == email)).isSome = true →
        createUnconfirmedUser hash db newId now name username email password
          = (db, .emailInUse))
    ∧ ((db.users.find? (fun u => u.username == username)).isSome = false →
       (db.users.find? (fun u => u.email == email)).isSome = false →
       db.unconfirmedUsers.any (fun u => u.username == username || u.email == email) = true →
        createUnconfirmedUser hash db newId now name username email password
          = (db, .uniqueViolation))
    ∧ ((db.users.find? (fun u => u.username == username)).isSome = false →
       (db.users.find? (fun u => u.email == email)).isSome = false →
       db.unconfirmedUsers.any (fun u => u.username == username || u.email == email) = false →
        createUnconfirmedUser hash db newId now name username email password
          = ({ db with
                unconfirmedUsers :=
                  db.unconfirmedUsers
                    ++ [⟨newId, name, username, email, hash password, now⟩] },
             .accepted ⟨newId, name, username, email, hash password, now⟩)) := by
  refine ⟨fun h1 => ?_, fun h1 h2 => ?_, fun h1 h2 h3 => ?_, fun h1 h2 h3 => ?_⟩
  · simp at h1
    simp [createUnconfirmedUser, h1]
  · simp at h1 h2
    have n1 : ¬ ∃ x ∈ db.users, x.username = username := by simpa using h1
    simp [createUnconfirmedUser, n1, h2]
  · simp at h1 h2 h3
    have n1 : ¬ ∃ x ∈ db.users, x.username = username := by simpa using h1
    have n2 : ¬ ∃ x ∈ db.users, x.email = email := by simpa using h2
    simp [createUnconfirmedUser, n1, n2, h3]
  · simp at h1 h2 h3
    have n1 : ¬ ∃ x ∈ db.users, x.username = username := by simpa using h1
    have n2 : ¬ ∃ x ∈ db.users, x.email = email := by simpa using h2
    have n3 : ¬ ∃ x ∈ db.unconfirmedUsers, x.username = username ∨ x.email = email := by
      simpa using h3
    simp [createUnconfirmedUser, n1, n2, n3]

/-- C3 amended witness: registering the taken username "ada" against
`dbUsers` is rejected with the username client error and no change; a
fresh registration against `dbStaged`'s empty users table with fresh
staging fields inserts exactly one row. -/
theorem createUnconfirmedUser_spec_witness :
    createUnconfirmedUser id dbUsers ("uu3") 5 ("Bob B") ("ada") ("bob@x.io") ("password1")
        = (dbUsers, .usernameInUse)
    ∧ createUnconfirmedUser id dbStaged ("uu3") 5 ("Carol") ("carol") ("c@x.io") ("password1")
        = ({ dbStaged with
              unconfirmedUsers :=
                dbStaged.unconfirmedUsers
                  ++ [⟨"uu3", "Carol", "carol", "c@x.io", "password1", 5⟩] },
           .accepted ⟨"uu3", "Carol", "carol", "c@x.io", "password1", 5⟩) := by
  constructor
  · exact (createUnconfirmedUser_spec id dbUsers ("uu3") 5 ("Bob B") ("ada") ("bob@x.io")
      ("password1")).1 (by decide)
  · exact (createUnconfirmedUser_spec id dbStaged ("uu3") 5 ("Carol") ("carol") ("c@x.io")
      ("password1")).2.2.2 (by decide) (by decide) (by decide)

/-- C10: the duplicate check queries only the confirmed users table, so a
registration clashing only with an UnconfirmedUser row passes both checks
and the attempted insert fails with the propagated unique-constraint
server error, not an "already in use" client error, writing nothing. -/
theorem createUnconfirmedUser_staging_clash
    (hash : String → String) (db : DB) (newId : String) (now : Nat)
    (name username email password : String)
    (hU : (db.users.find? (fun u => u.username == username)).isSome = false)
    (hE : (db.users.find? (fun u => u.email == email)).isSome = false)
    (hclash : db.unconfirmedUsers.any
        (fun u => u.username == username || u.email == email) = true) :
    createUnconfirmedUser hash db newId now name username email password
        = (db, .uniqueViolation)
    ∧ (createUnconfirmedUser hash db newId now name username email password).2
        ≠ .usernameInUse
    ∧ (createUnconfirmedUser hash db newId now name username email password).2
        ≠ .emailInUse := by
  have h : createUnconfirmedUser hash db newId now name username email password
      = (db, .uniqueViolation) := by
    simp [createUnconfirmedUser, hU, hE, hclash]
  refine ⟨h, ?_, ?_⟩ <;> rw [h] <;> simp

/-- C10 witness: registering username "alice" against `dbStaged` (taken
only in the staging table) yields the unique-violation server error. -/
theorem createUnconfirmedUser_staging_clash_witness :
    createUnconfirmedUser id dbStaged ("uu3") 7 ("Alice") ("alice") ("al@x.io") ("password1")
        = (dbStaged, .uniqueViolation) :=
  (createUnconfirmedUser_staging_clash id dbStaged ("uu3") 7 ("Alice") ("alice") ("al@x.io")
    ("password1") (by decide) (by decide) (by decide)).1

/-- C4: login fails not-found when no User's username or email equals the
credential; fails with a mismatch error (issuing no token) when the
password comparison fails; and otherwise returns a signed token whose
claims are exactly sub = the stored user id, name, username and user-type
id, with expiry 30 days after issuance. -/
theorem login_spec (compare : String → String → Bool) (db : DB)
    (credential password : String) (now : Nat) (secretJwtKey : String) :
    (db.users.find? (fun u => u.username == credential || u.email == credential) = none →
        login compare db credential password now secretJwtKey = .error .notFound)
    ∧ (∀ u, db.users.find? (fun u => u.username == credential || u.email == credential)
          = some u →
        compare password u.password = false →
        login compare db credential password now secretJwtKey = .error .passwordMismatch)
    ∧ (∀ u, db.users.find? (fun u => u.username == credential || u.email == credential)
          = some u →
        compare password u.password = true →
        login compare db credential password now secretJwtKey
          = .ok ⟨u.id, u.name, u.username, u.userTypeId, now,
                 now + thirtyDaysSeconds, secretJwtKey⟩) := by
  refine ⟨fun h => ?_, fun u h hc => ?_, fun u h hc => ?_⟩
  · simp [login, h]
  · simp [login, h, hc]
  · simp [login, h, hc]

/-- C4 witness: against `dbUsers`, the right password for "ada" yields
the token with her stored fields and a 30-day expiry; a wrong password is
a mismatch; an unknown credential is not-found. -/
theorem login_spec_witness :
    login comparePlain dbUsers ("ada") ("hashedpw") 100 ("k1")
        = .ok ⟨"u1", "Ada Lovelace", "ada", "ut1", 100, 100 + thirtyDaysSeconds, "k1"⟩
    ∧ login comparePlain dbUsers ("ada") ("wrongpass") 100 ("k1")
        = .error .passwordMismatch
    ∧ login comparePlain dbUsers ("nobody") ("hashedpw") 100 ("k1")
        = .error .notFound := by
  refine ⟨?_, ?_, ?_⟩
  · exact (login_spec comparePlain dbUsers ("ada") ("hashedpw") 100 ("k1")).2.2
      ⟨"u1", "Ada Lovelace", "ada", "ada@x.io", "hashedpw", "ut1"⟩ rfl (by decide)
  · exact (login_spec comparePlain dbUsers ("ada") ("wrongpass") 100 ("k1")).2.1
      ⟨"u1", "Ada Lovelace", "ada", "ada@x.io", "hashedpw", "ut1"⟩ rfl (by decide)
  · exact (login_spec comparePlain dbUsers ("nobody") ("hashedpw") 100 ("k1")).1 rfl

/-- C5 counterexample: a header whose first field is not "Bearer" still
proceeds when its second field is a valid token, refuting "only when the
header carries a valid, unexpired token in that form does the request
proceed" — the Bearer prefix is never checked. -/
theorem verifyToken_claim_counterexample :
    verifyToken verifyDemo ⟨some ("NotBearer tok1")⟩ = .proceed claimsDemo
    ∧ (headerFields ("NotBearer tok1"))[0]? = some ("NotBearer")
    ∧ "NotBearer" ≠ "Bearer" :=
  ⟨rfl, rfl, by decide⟩

/-- C5 (amended): the gate responds 401 when the Authorization header is
missing or empty, when it has no second space-separated field, and when
verification of that field fails or decodes to a string; when the second
field verifies to a payload the request proceeds with the decoded claims
attached — the "Bearer" prefix itself is not validated. -/
theorem verifyToken_spec (verify : String → Except String Decoded) (request : Request) :
    (request.authorization = none →
        verifyToken verify request = .unauthorizedMissing)
    ∧ (request.authorization = some ("") →
        verifyToken verify request = .unauthorizedMissing)
    ∧ (∀ h, request.authorization = some h → h ≠ "" →
        (headerFields h)[1]? = none →
        verifyToken verify request = .unauthorizedInvalid)
    ∧ (∀ h tok e, request.authorization = some h → h ≠ "" →
        (headerFields h)[1]? = some tok → verify tok = .error e →
        verifyToken verify request = .unauthorizedInvalid)
    ∧ (∀ h tok s, request.authorization = some h → h ≠ "" →
        (headerFields h)[1]? = some tok → verify tok = .ok (.str s) →
        verifyToken verify request = .unauthorizedInvalid)
    ∧ (∀ h tok c, request.authorization = some h → h ≠ "" →
        (headerFields h)[1]? = some tok → verify tok = .ok (.payload c) →
        verifyToken verify request = .proceed c) := by
  refine ⟨fun h => ?_, fun h => ?_,
          fun hd hh hne hs => ?_, fun hd tok e hh hne hs hv => ?_,
          fun hd tok s hh hne hs hv => ?_, fun hd tok c hh hne hs hv => ?_⟩
  · simp [verifyToken, h]
  · simp [verifyToken, h]
  · simp [verifyToken, hh, hne, hs]
  · simp [verifyToken, hh, hne, hs, hv]
  · simp [verifyToken, hh, hne, hs, hv]
  · simp [verifyToken, hh, hne, hs, hv]

/-- C5 amended witness: a missing header and a one-field header are 401;
a "Bearer tok1" header with the demo verifier proceeds with the demo
claims. -/
theorem verifyToken_spec_witness :
    verifyToken verifyDemo ⟨none⟩ = .unauthorizedMissing
    ∧ verifyToken verifyDemo ⟨some ("Bearer")⟩ = .unauthorizedInvalid
    ∧ verifyToken verifyDemo ⟨some ("Bearer tok1")⟩ = .proceed claimsDemo := by
  refine ⟨?_, ?_, ?_⟩
  · exact (verifyToken_spec verifyDemo ⟨none⟩).1 rfl
  · exact (verifyToken_spec verifyDemo ⟨some ("Bearer")⟩).2.2.1 ("Bearer") rfl
      (by decide) rfl
  · exact (verifyToken_spec verifyDemo ⟨some ("Bearer tok1")⟩).2.2.2.2.2
      ("Bearer tok1") ("tok1") claimsDemo rfl (by decide) rfl rfl

/-- Helper for C6: with distinct primary keys, a row of the table has its
id among the ids of the rows selected for deletion exactly when it is an
association of this article whose tagId is outside the new list. -/
theorem mem_delIds_iff (tbl : List ArticleTag) (articleId : String) (ts : List Nat)
    (hids : (tbl.map (fun r => r.id)).Nodup) (r : ArticleTag) (hr : r ∈ tbl) :
    (((tbl.filter (fun t => t.articleId == articleId)).filter
        (fun t => !(ts.contains t.tagId))).map (fun t => t.id)).contains r.id
      = (r.articleId == articleId && !(ts.contains r.tagId)) := by
  rw [Bool.eq_iff_iff]
  constructor
  · intro hcon
    have hmem : r.id ∈ ((tbl.filter (fun t => t.articleId == articleId)).filter
        (fun t => !(ts.contains t.tagId))).map (fun t => t.id) := by
      simpa [List.elem_iff] using hcon
    obtain ⟨r', hr', hid⟩ := List.mem_map.mp hmem
    have hr'f := List.mem_filter.mp hr'
    have hr'f2 := List.mem_filter.mp hr'f.1
    have heq : r' = r := List.inj_on_of_nodup_map hids hr'f2.1 hr hid
    rw [← heq, Bool.and_eq_true]
    exact ⟨hr'f2.2, hr'f.2⟩
  · intro hrq
    rw [Bool.and_eq_true] at hrq
    obtain ⟨hpa, hpt⟩ := hrq
    have hmem : r ∈ (tbl.filter (fun t => t.articleId == articleId)).filter
        (fun t => !(ts.contains t.tagId)) :=
      List.mem_filter.mpr ⟨List.mem_filter.mpr ⟨hr, hpa⟩, hpt⟩
    simpa [List.elem_iff] using List.mem_map_of_mem (fun t => t.id) hmem

/-- C6: the handler's tag reconciliation coincides with the spec's
set-difference sync — for a non-empty tagIds list it deletes exactly the
article's associations outside the new list and inserts exactly one fresh
row per tagId not among the old ones, keeping common associations
untouched; for an omitted or empty list it deletes all of the article's
associations.  Distinct primary keys (`hids`) reflect the table's primary
key constraint. -/
theorem updateArticle_tag_sync (tbl : List ArticleTag) (nextId : Nat)
    (articleId : String) (tagIds : Option (List Nat))
    (hids : (tbl.map (fun r => r.id)).Nodup) :
    updateArticleTags tbl nextId articleId tagIds
      = articleTagSyncSpec tbl nextId articleId tagIds := by
  match tagIds with
  | none => rfl
  | some ts =>
    match ts with
    | [] => rfl
    | t0 :: ts' =>
      simp only [updateArticleTags, articleTagSyncSpec]
      rw [if_pos (show (t0 :: ts').length > 0 by simp),
          if_neg (show ¬ ((t0 :: ts').isEmpty = true) by simp)]
      show tbl.filter (fun t =>
              !((((tbl.filter (fun t => t.articleId == articleId)).filter
                  (fun t => !((t0 :: ts').contains t.tagId))).map
                    (fun t => t.id)).contains t.id))
            ++ freshRows articleId nextId ((t0 :: ts').filter (fun t =>
                !(((tbl.filter (fun t => t.articleId == articleId)).map
                    (fun t => t.tagId)).contains t)))
          = tbl.filter (fun r =>
              !(r.articleId == articleId && !((t0 :: ts').contains r.tagId)))
            ++ freshRows articleId nextId ((t0 :: ts').filter (fun t =>
                !(((tbl.filter (fun r => r.articleId == articleId)).map
                    (fun r => r.tagId)).contains t)))
      have hfilters :
          tbl.filter (fun r =>
              !((((tbl.filter (fun t => t.articleId == articleId)).filter
                  (fun t => !((t0 :: ts').contains t.tagId))).map
                    (fun t => t.id)).contains r.id))
            = tbl.filter (fun r =>
                !(r.articleId == articleId && !((t0 :: ts').contains r.tagId))) := by
        apply List.filter_congr
        intro r hr
        rw [mem_delIds_iff tbl articleId (t0 :: ts') hids r hr]
      rw [hfilters]

/-- C6 witness: the spec's own example — an article holding tags [1, 2]
updated with tagIds [2, 3] keeps the tag-2 row, loses the tag-1 row, and
gains exactly one fresh tag-3 row. -/
theorem updateArticle_tag_sync_witness :
    updateArticleTags
        [⟨1, "a1", 1⟩, ⟨2, "a1", 2⟩, ⟨3, "a2", 1⟩] 10 ("a1") (some [2, 3])
      = articleTagSyncSpec
          [⟨1, "a1", 1⟩, ⟨2, "a1", 2⟩, ⟨3, "a2", 1⟩] 10 ("a1") (some [2, 3])
    ∧ updateArticleTags
        [⟨1, "a1", 1⟩, ⟨2, "a1", 2⟩, ⟨3, "a2", 1⟩] 10 ("a1") (some [2, 3])
      = [⟨2, "a1", 2⟩, ⟨3, "a2", 1⟩, ⟨10, "a1", 3⟩] :=
  ⟨updateArticle_tag_sync
      [⟨1, "a1", 1⟩, ⟨2, "a1", 2⟩, ⟨3, "a2", 1⟩] 10 ("a1") (some [2, 3])
      (by decide),
   rfl⟩

/-- C8: the article list is the contiguous slice of the filtered and
sorted sequence of length at most `take` starting at index
`(page - 1) * take` — element `i` of the response is element
`(page - 1) * take + i` of the sequence, and nothing is returned at or
beyond index `take`; all four parameters default as the handler
declares.  Instantiating take = 10, page = 2 gives rows 11 through 20. -/
theorem listAllArticles_pagination :
    (∀ (db : DB) (q : Option String) (s : SortField) (d : SortDir) (tk pg i : Nat),
      (listAllArticles db q (some s) (some d) (some tk) (some pg))[i]?
        = if i < tk
          then (filteredSortedArticles db q s d)[(pg - 1) * tk + i]?
          else none)
    ∧ (∀ (db : DB) (q : Option String),
        listAllArticles db q none none none none
          = listAllArticles db q (some .createdAt) (some .asc) (some 10) (some 1)) := by
  constructor
  · intro db q s d tk pg i
    by_cases hi : i < tk
    · rw [if_pos hi]
      show ((((filteredSortedArticles db q s d).drop ((pg - 1) * tk)).take tk))[i]? = _
      rw [List.getElem?_take_of_lt hi, List.getElem?_drop]
    · rw [if_neg hi]
      apply List.getElem?_eq_none
      calc ((((filteredSortedArticles db q s d).drop ((pg - 1) * tk)).take tk)).length
          ≤ tk := by rw [List.length_take]; omega
        _ ≤ i := by omega
  · intro db q
    rfl

/-- C9 counterexample: with NODE_ENV and PORT entirely absent, parsing
still succeeds (defaults "development" and 3333 are filled in), so the
process starts — refuting "the process fails to start when any of them is
absent"; the parsed configuration also carries no mail or base-URL
settings at all. -/
theorem envSchema_claim_counterexample :
    parseEnv isUrlAlways toNumberNone
        ⟨none, some ("postgresql://localhost/blog"), none, some ("secret")⟩
      = some ⟨"development", "postgresql://localhost/blog", 3333, "secret"⟩ :=
  rfl

/-- C9 (amended): the environment is validated at process start against a
fixed schema of exactly NODE_ENV, DATABASE_URL, PORT and JWT_SECRET_KEY;
only DATABASE_URL and JWT_SECRET_KEY are required (the process fails to
start when either is absent), while NODE_ENV defaults to "development"
and PORT to 3333; no mail or base-URL settings are part of the schema. -/
theorem envSchema_spec (isUrl : String → Bool) (toNumber : String → Option Int)
    (i : EnvInput) :
    (∀ dbu k, i.NODE_ENV = none → i.PORT = none →
        i.DATABASE_URL = some dbu → isUrl dbu = true → 1 ≤ dbu.length →
        i.JWT_SECRET_KEY = some k →
        parseEnv isUrl toNumber i = some ⟨"development", dbu, 3333, k⟩)
    ∧ (i.DATABASE_URL = none → parseEnv isUrl toNumber i = none)
    ∧ (i.JWT_SECRET_KEY = none → parseEnv isUrl toNumber i = none) := by
  refine ⟨fun dbu k h1 h2 h3 h4 h5 h6 => ?_, fun h => ?_, fun h => ?_⟩
  · simp [parseEnv, h1, h2, h3, h4, h5, h6]
  · simp only [parseEnv, h]
    split <;> simp_all
  · simp only [parseEnv, h]
    split <;> simp_all

/-- C9 amended witness: the concrete environments — both required keys
present parses to the defaults-filled configuration; a missing
DATABASE_URL or JWT_SECRET_KEY fails. -/
theorem envSchema_spec_witness :
    parseEnv isUrlAlways toNumberNone
        ⟨none, some ("postgresql://localhost/blog"), none, some ("secret")⟩
      = some ⟨"development", "postgresql://localhost/blog", 3333, "secret"⟩
    ∧ parseEnv isUrlAlways toNumberNone ⟨none, none, none, some ("secret")⟩ = none
    ∧ parseEnv isUrlAlways toNumberNone
        ⟨none, some ("postgresql://localhost/blog"), none, none⟩ = none := by
  refine ⟨?_, ?_, ?_⟩
  · exact (envSchema_spec isUrlAlways toNumberNone
      ⟨none, some ("postgresql://localhost/blog"), none, some ("secret")⟩).1
      ("postgresql://localhost/blog") ("secret") rfl rfl rfl rfl (by decide) rfl
  · exact (envSchema_spec isUrlAlways toNumberNone
      ⟨none, none, none, some ("secret")⟩).2.1 rfl
  · exact (envSchema_spec isUrlAlways toNumberNone
      ⟨none, some ("postgresql://localhost/blog"), none, none⟩).2.2 rfl

end Blog
